import Mathlib

/-!
Verification of the `fv` file viewer (src/fv.cpp).

The viewer works over an immutable list of lines.  Searching is done by
substring containment (`std::string::find`).  The anonymous-namespace helpers
`FindPreviousMatchingLine`, `FindNextMatchingLine`, `LocatePreviousMatch` and
`LocateNextMatch` are embedded below, together with the `FileViewer` state and
its `OnEvent` transition (commands plus the unconditional post-event clamps).

Machine-arithmetic notes, reflected faithfully in the embedding:
* `FindNextMatchingLine` compares `current >= lines.size() - 1`.  The operands
  are `int` and `size_t`, so `current` is converted to the unsigned 64-bit
  type and `lines.size() - 1` wraps to `2^64 - 1` for an empty vector.  This
  is modelled by `toSizeT` and `sizeTSub1`.
* the post-event clamps call `std::clamp(v, lo, hi)`.  Its precondition is
  `lo ≤ hi`; the viewer violates it on an empty document (`hi = size - 1 =
  -1`).  Both mainstream library implementations compute `min (max v lo) hi`,
  which is what `clampC` does.
-/

set_option linter.unusedVariables false

/-- Byte-for-byte agreement of a candidate prefix with the head of a list of
characters (the inner comparison loop of `std::string::find`). -/
def headAgrees : List Char → List Char → Bool
  | [], _ => true
  | _ :: _, [] => false
  | a :: as, b :: bs => a == b && headAgrees as bs

/-- `line.find(pat) != std::string::npos`: some suffix of `line` (including the
empty suffix) starts with `pat`.  In particular every line contains the empty
pattern. -/
def lineContains (line pat : String) : Bool :=
  (List.range (line.toList.length + 1)).any fun i =>
    headAgrees pat.toList (line.toList.drop i)

/-- Conversion of a C++ `int` value to `size_t` (unsigned 64-bit): reduction
modulo `2^64`. -/
def toSizeT (i : Int) : Nat := (i % (2 ^ 64 : Int)).toNat

/-- `n - 1` computed in `size_t` arithmetic: wraps to `2^64 - 1` at `n = 0`. -/
def sizeTSub1 (n : Nat) : Nat := (n + (2 ^ 64 - 1)) % 2 ^ 64

/-- `std::find_if` over a list of candidate line indices: the first index whose
line contains the pattern, `-1` when there is none.  Out-of-range indices read
as the empty string (they never arise in defined executions). -/
def firstMatch (lines : List String) (pat : String) : List Nat → Int
  | [] => -1
  | i :: is =>
    if lineContains (lines.getD i "") pat then (i : Int) else firstMatch lines pat is

/-- `FindNextMatchingLine` (fv.cpp:41-59).  The guard is the mixed-signedness
comparison `current >= lines.size() - 1`; when it does not fire, the scan runs
over the indices `current+1, …, size-1`. -/
def findNextMatchingLine (lines : List String) (current : Int) (pat : String) : Int :=
  if sizeTSub1 lines.length ≤ toSizeT current then -1
  else firstMatch lines pat ((List.range lines.length).drop (current + 1).toNat)

/-- `FindPreviousMatchingLine` (fv.cpp:21-39): for `current ≥ 1` the reverse
scan visits the indices `current-1, …, 0` in that order. -/
def findPreviousMatchingLine (lines : List String) (current : Int) (pat : String) : Int :=
  if current < 1 then -1
  else firstMatch lines pat (List.range current.toNat).reverse

/-- `LocateNextMatch` (fv.cpp:79-95): no-op on the empty pattern, otherwise a
forward scan followed by a wrap retry from `-1`; `current` is only replaced
when a line was found. -/
def locateNextMatch (lines : List String) (current : Int) (pat : String) : Int :=
  if pat = "" then current
  else
    let l0 := findNextMatchingLine lines current pat
    let l1 := if l0 = -1 then findNextMatchingLine lines (-1) pat else l0
    if l1 ≠ -1 then l1 else current

/-- `LocatePreviousMatch` (fv.cpp:61-77): symmetric wrap using `lines.size()`
as the wrap-start sentinel. -/
def locatePreviousMatch (lines : List String) (current : Int) (pat : String) : Int :=
  if pat = "" then current
  else
    let l0 := findPreviousMatchingLine lines current pat
    let l1 := if l0 = -1 then findPreviousMatchingLine lines (lines.length : Int) pat else l0
    if l1 ≠ -1 then l1 else current

/-- Validity of the scan start of `FindNextMatchingLine`: the iterator
`lines.cbegin() + (current + 1)` lies inside `[cbegin(), cend()]` exactly when
`0 ≤ current + 1 ≤ size`.  When the guard does not fire and this fails, the
`std::find_if` call reads past the end of the vector. -/
def findNextScanStartValid (lines : List String) (current : Int) : Prop :=
  0 ≤ current + 1 ∧ current + 1 ≤ (lines.length : Int)

/-- Validity of the scan start of `FindPreviousMatchingLine`: the reverse
iterator `lines.crbegin() + ((size - 1) - (current - 1))`, with the offset
computed in `size_t`, lies inside `[crbegin(), crend()]` exactly when
`current ≤ size` (given the guard already ensured `current ≥ 1`). -/
def findPrevScanStartValid (lines : List String) (current : Int) : Prop :=
  current ≤ (lines.length : Int)

/-- The mutable fields of `FileViewer` (fv.cpp:194-201). -/
structure ViewerState where
  topLine : Int
  leftEdge : Int
  matchingLine : Int
  pattern : String
  isCapturing : Bool
  showLineNumbers : Bool
  isFiltering : Bool

/-- The input events the viewer distinguishes (fv.cpp:172-186 and the
dispatch in `OnEvent`).  `Character` covers `e.is_character()`; everything
else is a special key; `Other` stands for any special key the viewer does not
handle (including `CtrlPgUp`/`CtrlPgDown`, which are named in `keyevents` but
never dispatched). -/
inductive Ev where
  | Character (c : Char)
  | Return
  | Escape
  | Backspace
  | ArrowUp
  | ArrowDown
  | ArrowLeft
  | ArrowRight
  | CtrlHome
  | CtrlEnd
  | PgUp
  | PgDown
  | Home
  | End
  | CtrlL
  | CtrlT
  | Other

/-- `std::clamp` as implemented by libstdc++ and libc++: `min (max v lo) hi`.
The precondition `lo ≤ hi` is the caller's duty and is not checked. -/
def clampC (v lo hi : Int) : Int := min (max v lo) hi

/-- `CmdStartCapture` (fv.cpp:210-214).  Note that `matchingLine_` is NOT
reset here. -/
def cmdStartCapture (s : ViewerState) : ViewerState :=
  { s with isCapturing := true, pattern := "" }

/-- `CmdEndCapture` (fv.cpp:216-223): unconditionally copies `matchingLine_`
into `topLine_` whenever a capture was active, even when it is still `-1`. -/
def cmdEndCapture (s : ViewerState) : ViewerState :=
  if s.isCapturing then { s with isCapturing := false, topLine := s.matchingLine } else s

/-- `CmdCancelCapture` (fv.cpp:225-233). -/
def cmdCancelCapture (s : ViewerState) : ViewerState :=
  if s.isCapturing then
    { s with isCapturing := false, pattern := "", matchingLine := -1 }
  else s

/-- `CmdBackspaceCapture` (fv.cpp:235-245): drop the last character of a
non-empty pattern and recompute the match (`UpdateMatchFromPattern`,
fv.cpp:205-208). -/
def cmdBackspaceCapture (lines : List String) (s : ViewerState) : ViewerState :=
  if s.isCapturing then
    if s.pattern.toList.length ≠ 0 then
      let p := String.mk s.pattern.toList.dropLast
      { s with pattern := p, matchingLine := findNextMatchingLine lines s.topLine p }
    else s
  else s

/-- The loop of `CmdPreviousFilteredPage` (fv.cpp:297-311).  The fuel is the
number of hits still needed, `viewHeight - 1 - hits`; every iteration either
counts a hit (and recurses) or exits.  Returns the final `line` together with
the number of hits counted. -/
def loopPrev (lines : List String) (pat : String) : Nat → Int → Int × Nat
  | 0, line => (line, 0)
  | k + 1, line =>
    if line < 0 then (line, 0)
    else
      let l := findPreviousMatchingLine lines (line - 1) pat
      if l = -1 then (l, 0)
      else
        let r := loopPrev lines pat k l
        (r.1, r.2 + 1)

/-- The loop of `CmdNextFilteredPage` (fv.cpp:313-330); the while-condition is
`line != -1 && line < size && hits < viewHeight - 1`. -/
def loopNext (lines : List String) (pat : String) : Nat → Int → Int × Nat
  | 0, line => (line, 0)
  | k + 1, line =>
    if line = -1 ∨ (lines.length : Int) ≤ line then (line, 0)
    else
      let l := findNextMatchingLine lines (line + 1) pat
      if l = -1 then (l, 0)
      else
        let r := loopNext lines pat k l
        (r.1, r.2 + 1)

/-- `CmdPreviousFilteredPage` (fv.cpp:297-311): commit the scanned line when a
full page of hits was counted, otherwise jump to line 0. -/
def cmdPreviousFilteredPage (lines : List String) (vh : Int) (s : ViewerState) : ViewerState :=
  let r := loopPrev lines s.pattern (vh - 1).toNat s.topLine
  { s with topLine := if (r.2 : Int) = vh - 1 then r.1 else 0 }

/-- `CmdNextFilteredPage` (fv.cpp:313-330): commit the scanned line when a
full page of hits was counted, otherwise leave `topLine_` unchanged. -/
def cmdNextFilteredPage (lines : List String) (vh : Int) (s : ViewerState) : ViewerState :=
  let r := loopNext lines s.pattern (vh - 1).toNat s.topLine
  if (r.2 : Int) = vh - 1 then { s with topLine := r.1 } else s

/-- The scan of `CmdRightmostColumn` (fv.cpp:337-358): walk the lines from
`topLine`, consuming one row of budget for each visible line (`!isFiltering ||
(!pattern.empty() && contains)`), and return the maximum length seen. -/
def rightmostLoop (filtering : Bool) (pat : String) : Int → List String → Nat
  | _, [] => 0
  | n, l :: rest =>
    if n ≤ 0 then 0
    else if ¬filtering ∨ (pat ≠ "" ∧ lineContains l pat) then
      max l.toList.length (rightmostLoop filtering pat (n - 1) rest)
    else rightmostLoop filtering pat n rest

/-- `CmdRightmostColumn` (fv.cpp:337-358). -/
def cmdRightmostColumn (lines : List String) (vw vh : Int) (s : ViewerState) : ViewerState :=
  let len : Int := (rightmostLoop s.isFiltering s.pattern vh (lines.drop s.topLine.toNat) : Int)
  let margin : Int := if s.showLineNumbers then 8 else 0
  if len > vw - margin then { s with leftEdge := len - vw + margin }
  else { s with leftEdge := 0 }

/-- The command dispatch of `FileViewer::OnEvent` (fv.cpp:440-556), before the
post-event clamps. -/
def applyCmd (lines : List String) (vw vh : Int) (s : ViewerState) (e : Ev) : ViewerState :=
  match e with
  | .Character c =>
    if s.isCapturing then
      let p := s.pattern.push c
      { s with pattern := p, matchingLine := findNextMatchingLine lines s.topLine p }
    else if c = '/' then cmdStartCapture s
    else if c = 'n' then { s with topLine := locateNextMatch lines s.topLine s.pattern }
    else if c = 'p' then { s with topLine := locatePreviousMatch lines s.topLine s.pattern }
    else s
  | .Return => cmdEndCapture s
  | .Escape => cmdCancelCapture s
  | .Backspace => cmdBackspaceCapture lines s
  | .ArrowUp =>
    if s.isFiltering ∧ s.pattern ≠ "" then
      { s with topLine := locatePreviousMatch lines s.topLine s.pattern }
    else { s with topLine := s.topLine - 1 }
  | .ArrowDown =>
    if s.isFiltering ∧ s.pattern ≠ "" then
      { s with topLine := locateNextMatch lines s.topLine s.pattern }
    else { s with topLine := s.topLine + 1 }
  | .ArrowLeft => { s with leftEdge := s.leftEdge - 1 }
  | .ArrowRight => { s with leftEdge := s.leftEdge + 1 }
  | .CtrlHome => { s with topLine := 0 }
  | .CtrlEnd => { s with topLine := (lines.length : Int) - (vh - 1) }
  | .PgUp =>
    if ¬s.isFiltering then { s with topLine := s.topLine - (vh - 1) }
    else cmdPreviousFilteredPage lines vh s
  | .PgDown =>
    if ¬s.isFiltering then { s with topLine := s.topLine + (vh - 1) }
    else cmdNextFilteredPage lines vh s
  | .Home => { s with leftEdge := 0 }
  | .End => cmdRightmostColumn lines vw vh s
  | .CtrlL => { s with showLineNumbers := !s.showLineNumbers }
  | .CtrlT => { s with isFiltering := !s.isFiltering }
  | .Other => s

/-- `FileViewer::OnEvent` (fv.cpp:440-560): dispatch the command, then apply
the two unconditional `std::clamp` post-conditions (fv.cpp:557-558). -/
def stepEvent (lines : List String) (vw vh : Int) (s : ViewerState) (e : Ev) : ViewerState :=
  let s1 := applyCmd lines vw vh s e
  { s1 with
    leftEdge := clampC s1.leftEdge 0 (vw - 1),
    topLine := clampC s1.topLine 0 ((lines.length : Int) - 1) }

/-- The five-line example document of the specification. -/
def doc5 : List String := ["alpha", "beta", "alpha2", "gamma", "alpha3"]

/-- The initial viewer state (fv.cpp:194-201). -/
def initState : ViewerState :=
  { topLine := 0, leftEdge := 0, matchingLine := -1, pattern := ""
    isCapturing := false, showLineNumbers := true, isFiltering := false }

/-! ## Helper lemmas -/

theorem lineContains_empty (l : String) : lineContains l "" = true := by
  unfold lineContains
  exact List.any_eq_true.mpr ⟨0, List.mem_range.mpr (Nat.succ_pos _), rfl⟩

theorem toSizeT_eq_toNat (c : Int) (h0 : 0 ≤ c) (h1 : c < 2 ^ 64) : toSizeT c = c.toNat := by
  unfold toSizeT
  rw [Int.emod_eq_of_lt h0 (by exact_mod_cast h1)]

theorem toSizeT_neg_one : toSizeT (-1) = 2 ^ 64 - 1 := by decide

theorem sizeTSub1_eq (n : Nat) (h1 : 1 ≤ n) (h2 : n < 2 ^ 64) : sizeTSub1 n = n - 1 := by
  unfold sizeTSub1
  omega

theorem findNext_neg_one (lines : List String) (pat : String) :
    findNextMatchingLine lines (-1) pat = -1 := by
  unfold findNextMatchingLine
  rw [toSizeT_neg_one]
  have h2 : sizeTSub1 lines.length ≤ 2 ^ 64 - 1 := by
    unfold sizeTSub1
    have := Nat.mod_lt (lines.length + (2 ^ 64 - 1)) (show 0 < 2 ^ 64 by positivity)
    omega
  rw [if_pos h2]

theorem range'_drop (n : Nat) :
    ∀ s k, (List.range' s n).drop k = List.range' (s + k) (n - k) := by
  induction n with
  | zero => intro s k; simp
  | succ n ih =>
    intro s k
    cases k with
    | zero => simp
    | succ k =>
      rw [List.range'_succ s n 1, List.drop_succ_cons, ih (s + 1) k]
      have h1 : s + 1 + k = s + (k + 1) := by omega
      have h2 : n - k = n + 1 - (k + 1) := by omega
      rw [h1, h2]

theorem range_drop_cons (n k : Nat) (h : k < n) :
    (List.range n).drop k = k :: List.range' (k + 1) (n - k - 1) := by
  rw [List.range_eq_range' n, range'_drop, Nat.zero_add]
  have h2 : n - k = (n - k - 1) + 1 := by omega
  rw [h2, List.range'_succ k (n - k - 1) 1]
  simp

theorem clampC_bounds (v lo hi : Int) (h : lo ≤ hi) :
    lo ≤ clampC v lo hi ∧ clampC v lo hi ≤ hi := by
  unfold clampC
  exact ⟨le_min (le_max_right v lo) h, min_le_right _ _⟩

theorem clampC_eq_self (v lo hi : Int) (h1 : lo ≤ v) (h2 : v ≤ hi) : clampC v lo hi = v := by
  unfold clampC
  rw [max_eq_left h1, min_eq_left h2]

theorem firstMatch_unique (lines : List String) (pat : String) (m : Nat)
    (hmatch : lineContains (lines.getD m "") pat = true)
    (hu : ∀ j, j < lines.length → lineContains (lines.getD j "") pat = true → j = m) :
    ∀ l : List Nat, (∀ j ∈ l, j < lines.length) →
      firstMatch lines pat l = if m ∈ l then (m : Int) else -1 := by
  intro l
  induction l with
  | nil => intro _; simp [firstMatch]
  | cons a t ih =>
    intro hv
    by_cases ha : lineContains (lines.getD a "") pat = true
    · have ham : a = m := hu a (hv a (List.mem_cons_self a t)) ha
      subst ham
      have h1 : firstMatch lines pat (a :: t) = (a : Int) := by
        unfold firstMatch
        rw [if_pos ha]
      rw [h1, if_pos (List.mem_cons_self a t)]
    · have ham : a ≠ m := fun h => ha (h ▸ hmatch)
      have hstep : firstMatch lines pat (a :: t) = firstMatch lines pat t := by
        conv_lhs => unfold firstMatch
        rw [if_neg ha]
      rw [hstep, ih (fun j hj => hv j (List.mem_cons_of_mem a hj))]
      have hmem : (m ∈ a :: t) ↔ m ∈ t := by
        rw [List.mem_cons]
        exact or_iff_right (fun h => ham h.symm)
      rw [if_congr hmem rfl rfl]

theorem findNext_unique (lines : List String) (pat : String) (m : Nat) (c : Int)
    (hm : m < lines.length)
    (hmatch : lineContains (lines.getD m "") pat = true)
    (hu : ∀ j, j < lines.length → lineContains (lines.getD j "") pat = true → j = m)
    (hsz : lines.length < 2 ^ 64)
    (hc0 : 0 ≤ c) (hclt : c < (lines.length : Int)) :
    findNextMatchingLine lines c pat = if c < (m : Int) then (m : Int) else -1 := by
  have hlen1 : 1 ≤ lines.length := by omega
  have hts : toSizeT c = c.toNat := toSizeT_eq_toNat c hc0 (by omega)
  have hss : sizeTSub1 lines.length = lines.length - 1 := sizeTSub1_eq _ hlen1 hsz
  unfold findNextMatchingLine
  rw [hts, hss]
  by_cases hg : lines.length - 1 ≤ c.toNat
  · rw [if_pos hg, if_neg (by omega)]
  · rw [if_neg hg]
    have hk : (c + 1).toNat < lines.length := by omega
    have hvalid : ∀ j ∈ (List.range lines.length).drop (c + 1).toNat, j < lines.length :=
      fun j hj => List.mem_range.mp (List.mem_of_mem_drop hj)
    rw [firstMatch_unique lines pat m hmatch hu _ hvalid]
    have hmem : m ∈ (List.range lines.length).drop (c + 1).toNat ↔ c < (m : Int) := by
      rw [range_drop_cons _ _ hk, List.mem_cons, List.mem_range'_1]
      omega
    by_cases hcm : c < (m : Int)
    · rw [if_pos (hmem.mpr hcm), if_pos hcm]
    · rw [if_neg (fun h => hcm (hmem.mp h)), if_neg hcm]

theorem findPrev_unique (lines : List String) (pat : String) (m : Nat) (c : Int)
    (hm : m < lines.length)
    (hmatch : lineContains (lines.getD m "") pat = true)
    (hu : ∀ j, j < lines.length → lineContains (lines.getD j "") pat = true → j = m)
    (hcle : c ≤ (lines.length : Int)) :
    findPreviousMatchingLine lines c pat = if (m : Int) < c then (m : Int) else -1 := by
  unfold findPreviousMatchingLine
  by_cases hc : c < 1
  · rw [if_pos hc, if_neg (by omega)]
  · rw [if_neg hc]
    have hvalid : ∀ j ∈ (List.range c.toNat).reverse, j < lines.length := fun j hj => by
      have := List.mem_range.mp (List.mem_reverse.mp hj)
      omega
    rw [firstMatch_unique lines pat m hmatch hu _ hvalid]
    have hmem : m ∈ (List.range c.toNat).reverse ↔ (m : Int) < c := by
      rw [List.mem_reverse, List.mem_range]
      omega
    by_cases h : (m : Int) < c
    · rw [if_pos (hmem.mpr h), if_pos h]
    · rw [if_neg (fun hh => h (hmem.mp hh)), if_neg h]

theorem locatePrev_unique (lines : List String) (pat : String) (m : Nat) (c : Int)
    (hp : pat ≠ "")
    (hm : m < lines.length)
    (hmatch : lineContains (lines.getD m "") pat = true)
    (hu : ∀ j, j < lines.length → lineContains (lines.getD j "") pat = true → j = m)
    (hcle : c ≤ (lines.length : Int)) :
    locatePreviousMatch lines c pat = (m : Int) := by
  unfold locatePreviousMatch
  rw [if_neg hp]
  simp only [findPrev_unique lines pat m c hm hmatch hu hcle]
  by_cases h : (m : Int) < c
  · simp [h, (by omega : (m : Int) ≠ -1)]
  · have hwrap : findPreviousMatchingLine lines (lines.length : Int) pat = (m : Int) := by
      rw [findPrev_unique lines pat m _ hm hmatch hu (le_refl _)]
      rw [if_pos (by exact_mod_cast hm)]
    simp [h, hwrap, (by omega : (m : Int) ≠ -1)]

/-- A three-line document whose only line containing `"hit"` is line 1. -/
def doc3 : List String := ["x", "hit", "y"]

/-! ## Claim theorems -/

/-- Claim C1: the claim says `locateNextMatch` wraps around to the first
matching line of the document when no match exists strictly after `current`,
and in particular `locateNextMatch(4, "alpha") = 0` on the example document.
The code disagrees: in `FindNextMatchingLine` the guard
`current >= lines.size() - 1` converts `current = -1` to `size_t`
(`2^64 - 1`), so the wrap call `FindNextMatchingLine(-1, pattern)` always
returns `-1` and `LocateNextMatch` leaves `current` unchanged — here it
returns `4`, and on `["hit", "x"]` from index 1 it even returns the index of
a line that does not contain the pattern. -/
theorem locateNextMatch_wrap_neverFires :
    findNextMatchingLine doc5 (-1) "alpha" = -1 ∧
    locateNextMatch doc5 4 "alpha" = 4 ∧
    lineContains (doc5.getD 0 "") "alpha" = true ∧
    locateNextMatch ["hit", "x"] 1 "hit" = 1 ∧
    lineContains "x" "hit" = false := by
  refine ⟨?_, ?_, ?_, ?_, ?_⟩ <;> decide

/-- Claim C5: on the empty document the searches do NOT all return "no match"
immediately: for `current = 0` the guard of `FindNextMatchingLine` is the
unsigned comparison `0 ≥ 2^64 - 1`, which is false, so the scan starts at
`cbegin() + 1` — past the end of the empty vector (out-of-range); the reverse
scan of `FindPreviousMatchingLine` is likewise out of range for
`current ≥ 1`; and the post-event clamp is `std::clamp(topLine, 0, -1)`,
which yields `-1`, not `0`. -/
theorem emptyDocument_searches_unsafe :
    ¬ sizeTSub1 ([] : List String).length ≤ toSizeT 0 ∧
    ¬ findNextScanStartValid ([] : List String) 0 ∧
    ¬ findPrevScanStartValid ([] : List String) 1 ∧
    findPreviousMatchingLine [] 0 "a" = -1 ∧
    (stepEvent [] 80 25 initState .ArrowDown).topLine = -1 := by
  refine ⟨by decide, ?_, ?_, by decide, by decide⟩
  · unfold findNextScanStartValid
    decide
  · unfold findPrevScanStartValid
    decide

/-- Claim C6: on the example document with filtering on, pattern `"alpha"`,
`viewHeight = 3` and `topLine = 0`, PageDown scans the hits at lines 2 and 4,
reaching `hits = 2 = viewHeight - 1`, and sets `topLine` to 4. -/
theorem filteredPageDown_scenario :
    loopNext doc5 "alpha" 2 0 = (4, 2) ∧
    (stepEvent doc5 80 3 ⟨0, 0, -1, "alpha", false, true, true⟩ .PgDown).topLine = 4 := by
  constructor <;> decide

/-- Claim C7: the empty pattern makes `locateNextMatch` and
`locatePreviousMatch` strict identities, for every document and every
index. -/
theorem emptyPattern_identity (lines : List String) (i : Int) :
    locateNextMatch lines i "" = i ∧ locatePreviousMatch lines i "" = i := by
  constructor <;> simp [locateNextMatch, locatePreviousMatch]

/-- Claim C7 (witness): the identity at a concrete document and index. -/
theorem emptyPattern_identity_w :
    locateNextMatch doc5 3 "" = 3 ∧ locatePreviousMatch doc5 3 "" = 3 :=
  emptyPattern_identity doc5 3

/-- Claim C8 (counterexample): on `["a", "b"]` with `pattern = "a"` (two
lines, exactly one match, at line 0) and non-matching index `i = 1`, the
composition `locatePreviousMatch(locateNextMatch(1, "a"), "a")` returns 0,
not 1 — the two operations are not mutual inverses. -/
theorem locateMatches_not_inverses_cex :
    1 < (["a", "b"] : List String).length ∧
    lineContains "a" "a" = true ∧
    lineContains "b" "a" = false ∧
    locatePreviousMatch ["a", "b"] (locateNextMatch ["a", "b"] 1 "a") "a" ≠ 1 := by
  refine ⟨?_, ?_, ?_, ?_⟩ <;> decide

/-- Claim C8 (amended): on a document with more than one line in which exactly
one line `m` matches the non-empty pattern `p`, for every valid index
`0 ≤ i < size` with `i ≠ m` the composition
`locatePreviousMatch(locateNextMatch(i, p), p)` returns `m`, the unique
matching line — it collapses to the match instead of returning `i`. -/
theorem uniqueMatch_roundTrip_collapses (lines : List String) (pat : String) (m : Nat) (i : Int)
    (hp : pat ≠ "") (hlen : 1 < lines.length) (hsz : lines.length < 2 ^ 64)
    (hm : m < lines.length)
    (hmatch : lineContains (lines.getD m "") pat = true)
    (hu : ∀ j, j < lines.length → lineContains (lines.getD j "") pat = true → j = m)
    (hi0 : 0 ≤ i) (hilt : i < (lines.length : Int)) (hne : i ≠ (m : Int)) :
    locatePreviousMatch lines (locateNextMatch lines i pat) pat = (m : Int) := by
  have hnext : locateNextMatch lines i pat = if i < (m : Int) then (m : Int) else i := by
    unfold locateNextMatch
    rw [if_neg hp]
    simp only [findNext_unique lines pat m i hm hmatch hu hsz hi0 hilt]
    by_cases h : i < (m : Int)
    · simp [h, (by omega : (m : Int) ≠ -1)]
    · simp [h, findNext_neg_one]
  rw [hnext]
  by_cases h : i < (m : Int)
  · rw [if_pos h]
    exact locatePrev_unique lines pat m _ hp hm hmatch hu (by exact_mod_cast hm.le)
  · rw [if_neg h]
    exact locatePrev_unique lines pat m _ hp hm hmatch hu (le_of_lt hilt)

/-- Claim C8 (witness): the amended statement at the concrete document
`["x", "hit", "y"]`, unique match at line 1, starting index 2. -/
theorem uniqueMatch_roundTrip_collapses_w :
    locatePreviousMatch doc3 (locateNextMatch doc3 2 "hit") "hit" = (1 : Int) :=
  uniqueMatch_roundTrip_collapses doc3 "hit" 1 2 (by decide) (by decide) (by decide)
    (by decide) (by decide) (by decide) (by decide) (by decide) (by decide)

/-- Claim C2 (counterexample): with filtering on, pattern `"alpha"`,
`viewHeight = 3` and `topLine = 2` on the example document, the backward scan
counts only one hit (insufficient, `1 < viewHeight - 1 = 2`), yet PageUp does
NOT leave `topLine` unchanged: `CmdPreviousFilteredPage` executes
`topLine_ = (hits == viewHeight - 1) ? line : 0`, jumping to line 0. -/
theorem filteredPageUp_not_unchanged_cex :
    ((loopPrev doc5 "alpha" 2 2).2 : Int) < 2 ∧
    (stepEvent doc5 80 3 ⟨2, 0, -1, "alpha", false, true, true⟩ .PgUp).topLine ≠ 2 := by
  constructor <;> decide

/-- Claim C2 (amended): filtered PageUp scans backwards counting matching
lines like PageDown's mirror, but on insufficient matches it sets `topLine`
to 0 (it does not leave it unchanged); only when exactly `viewHeight - 1`
hits are found is `topLine` set to the last hit (then clamped). -/
theorem filteredPageUp_zero_or_lastHit (lines : List String) (vw vh : Int) (s : ViewerState)
    (hf : s.isFiltering = true) (h1 : 1 ≤ lines.length) :
    (((loopPrev lines s.pattern (vh - 1).toNat s.topLine).2 : Int) ≠ vh - 1 →
      (stepEvent lines vw vh s .PgUp).topLine = 0) ∧
    (((loopPrev lines s.pattern (vh - 1).toNat s.topLine).2 : Int) = vh - 1 →
      (stepEvent lines vw vh s .PgUp).topLine
        = clampC (loopPrev lines s.pattern (vh - 1).toNat s.topLine).1 0
            ((lines.length : Int) - 1)) := by
  have hstep : (stepEvent lines vw vh s .PgUp).topLine
      = clampC (applyCmd lines vw vh s .PgUp).topLine 0 ((lines.length : Int) - 1) := rfl
  have hcmd : applyCmd lines vw vh s .PgUp = cmdPreviousFilteredPage lines vh s := by
    simp [applyCmd, hf]
  have htl : (cmdPreviousFilteredPage lines vh s).topLine
      = if ((loopPrev lines s.pattern (vh - 1).toNat s.topLine).2 : Int) = vh - 1
        then (loopPrev lines s.pattern (vh - 1).toNat s.topLine).1 else 0 := rfl
  constructor
  · intro hne
    rw [hstep, hcmd, htl, if_neg hne]
    exact clampC_eq_self 0 0 _ le_rfl (by omega)
  · intro heq
    rw [hstep, hcmd, htl, if_pos heq]

/-- Claim C2 (witness): on the example document from `topLine = 4` with
`viewHeight = 3` the backward scan finds the two hits 2 and 0, so PageUp
commits the last hit (line 0, after clamping). -/
theorem filteredPageUp_zero_or_lastHit_w :
    (stepEvent doc5 80 3 ⟨4, 0, -1, "alpha", false, true, true⟩ .PgUp).topLine
      = clampC (loopPrev doc5 "alpha" ((3 : Int) - 1).toNat 4).1 0 ((doc5.length : Int) - 1) :=
  (filteredPageUp_zero_or_lastHit doc5 80 3 ⟨4, 0, -1, "alpha", false, true, true⟩ rfl
    (by decide)).2 (by decide)

/-- Claim C3 (counterexample): capturing with `matchingLine = -1` and
`topLine = 3`, a Return event does exit Capturing but does NOT leave
`topLine` unchanged: `CmdEndCapture` copies `-1` into `topLine_` and the
post-event clamp raises it to 0. -/
theorem returnUnresolved_cex :
    (stepEvent doc5 80 25 ⟨3, 0, -1, "zz", true, true, false⟩ .Return).topLine ≠ 3 ∧
    (stepEvent doc5 80 25 ⟨3, 0, -1, "zz", true, true, false⟩ .Return).isCapturing = false := by
  constructor <;> decide

/-- Claim C3 (amended): for every capturing state whose `matchingLine` is
still `-1`, a Return event exits Capturing and sets `topLine = matchingLine
= -1`, which the post-event clamp raises to 0 on a non-empty document —
`topLine` becomes 0 regardless of its previous value, rather than staying
unchanged. -/
theorem returnUnresolved_jumpsToZero (lines : List String) (vw vh : Int) (s : ViewerState)
    (hc : s.isCapturing = true) (hm : s.matchingLine = -1) (h1 : 1 ≤ lines.length) :
    (stepEvent lines vw vh s .Return).isCapturing = false ∧
    (stepEvent lines vw vh s .Return).topLine = 0 := by
  have hend : cmdEndCapture s = { s with isCapturing := false, topLine := s.matchingLine } := by
    unfold cmdEndCapture
    rw [if_pos hc]
  constructor
  · show (cmdEndCapture s).isCapturing = false
    rw [hend]
  · show clampC (cmdEndCapture s).topLine 0 ((lines.length : Int) - 1) = 0
    have h3 : (cmdEndCapture s).topLine = -1 := by
      rw [hend]
      exact hm
    rw [h3]
    unfold clampC
    rw [max_eq_right (by omega : (-1 : Int) ≤ 0),
      min_eq_left (by omega : (0 : Int) ≤ (lines.length : Int) - 1)]

/-- Claim C3 (witness): the amended statement at a concrete capturing state
with `topLine = 3`. -/
theorem returnUnresolved_jumpsToZero_w :
    (stepEvent doc5 80 25 ⟨3, 0, -1, "zz", true, true, false⟩ .Return).isCapturing = false ∧
    (stepEvent doc5 80 25 ⟨3, 0, -1, "zz", true, true, false⟩ .Return).topLine = 0 :=
  returnUnresolved_jumpsToZero doc5 80 25 ⟨3, 0, -1, "zz", true, true, false⟩ rfl rfl (by decide)

/-- Claim C4: for a non-empty document and a positive view width the
post-event clamps do establish `0 ≤ leftEdge ≤ viewWidth - 1` and
`0 ≤ topLine ≤ size - 1` after every event; but on an empty document the
clamp is `std::clamp(topLine, 0, -1)` (precondition `lo ≤ hi` violated;
mainstream implementations return `min (max v 0) (-1) = -1`), so after any
event `topLine = -1 < 0` and the claimed invariant `0 ≤ topLine ≤
max(0, size - 1)` fails. -/
theorem clampInvariant_nonempty_breaks_empty :
    (∀ (lines : List String) (vw vh : Int) (s : ViewerState) (e : Ev),
      1 ≤ lines.length → 1 ≤ vw →
        0 ≤ (stepEvent lines vw vh s e).topLine ∧
        (stepEvent lines vw vh s e).topLine ≤ (lines.length : Int) - 1 ∧
        0 ≤ (stepEvent lines vw vh s e).leftEdge ∧
        (stepEvent lines vw vh s e).leftEdge ≤ vw - 1) ∧
    (stepEvent [] 80 25 initState .ArrowDown).topLine = -1 := by
  constructor
  · intro lines vw vh s e h1 h2
    have ht : (stepEvent lines vw vh s e).topLine
        = clampC (applyCmd lines vw vh s e).topLine 0 ((lines.length : Int) - 1) := rfl
    have hl : (stepEvent lines vw vh s e).leftEdge
        = clampC (applyCmd lines vw vh s e).leftEdge 0 (vw - 1) := rfl
    obtain ⟨ha, hb⟩ :=
      clampC_bounds (applyCmd lines vw vh s e).topLine 0 ((lines.length : Int) - 1) (by omega)
    obtain ⟨hc, hd⟩ := clampC_bounds (applyCmd lines vw vh s e).leftEdge 0 (vw - 1) (by omega)
    rw [ht, hl]
    exact ⟨ha, hb, hc, hd⟩
  · decide

/-- Claim C4 (witness): the clamp invariant applied at a concrete non-empty
document and event. -/
theorem clampInvariant_nonempty_breaks_empty_w :
    0 ≤ (stepEvent doc5 80 25 initState .ArrowUp).topLine :=
  (clampInvariant_nonempty_breaks_empty.1 doc5 80 25 initState .ArrowUp (by decide)
    (by decide)).1

/-- Claim C9: special navigation events are processed even while capturing —
for every capturing state, ArrowUp/ArrowDown/PageUp/PageDown and
Ctrl+Home/Ctrl+End change `topLine` exactly as they would with
`isCapturing = false`, while `pattern` and `matchingLine` stay unchanged
(the match is not recomputed after the move). -/
theorem capturingNavigation (lines : List String) (vw vh : Int) (s : ViewerState)
    (hc : s.isCapturing = true) :
    ((stepEvent lines vw vh s .ArrowUp).topLine
        = (stepEvent lines vw vh { s with isCapturing := false } .ArrowUp).topLine ∧
      (stepEvent lines vw vh s .ArrowUp).pattern = s.pattern ∧
      (stepEvent lines vw vh s .ArrowUp).matchingLine = s.matchingLine) ∧
    ((stepEvent lines vw vh s .ArrowDown).topLine
        = (stepEvent lines vw vh { s with isCapturing := false } .ArrowDown).topLine ∧
      (stepEvent lines vw vh s .ArrowDown).pattern = s.pattern ∧
      (stepEvent lines vw vh s .ArrowDown).matchingLine = s.matchingLine) ∧
    ((stepEvent lines vw vh s .PgUp).topLine
        = (stepEvent lines vw vh { s with isCapturing := false } .PgUp).topLine ∧
      (stepEvent lines vw vh s .PgUp).pattern = s.pattern ∧
      (stepEvent lines vw vh s .PgUp).matchingLine = s.matchingLine) ∧
    ((stepEvent lines vw vh s .PgDown).topLine
        = (stepEvent lines vw vh { s with isCapturing := false } .PgDown).topLine ∧
      (stepEvent lines vw vh s .PgDown).pattern = s.pattern ∧
      (stepEvent lines vw vh s .PgDown).matchingLine = s.matchingLine) ∧
    ((stepEvent lines vw vh s .CtrlHome).topLine
        = (stepEvent lines vw vh { s with isCapturing := false } .CtrlHome).topLine ∧
      (stepEvent lines vw vh s .CtrlHome).pattern = s.pattern ∧
      (stepEvent lines vw vh s .CtrlHome).matchingLine = s.matchingLine) ∧
    ((stepEvent lines vw vh s .CtrlEnd).topLine
        = (stepEvent lines vw vh { s with isCapturing := false } .CtrlEnd).topLine ∧
      (stepEvent lines vw vh s .CtrlEnd).pattern = s.pattern ∧
      (stepEvent lines vw vh s .CtrlEnd).matchingLine = s.matchingLine) := by
  by_cases hf : s.isFiltering = true <;> by_cases hp : s.pattern = "" <;>
    refine ⟨⟨?_, ?_, ?_⟩, ⟨?_, ?_, ?_⟩, ⟨?_, ?_, ?_⟩, ⟨?_, ?_, ?_⟩, ⟨?_, ?_, ?_⟩,
      ⟨?_, ?_, ?_⟩⟩ <;>
      simp [stepEvent, applyCmd, cmdPreviousFilteredPage, cmdNextFilteredPage, hf, hp] <;>
      (split <;> simp [*])

/-- Claim C9 (witness): the capturing-navigation statement projected at a
concrete capturing state. -/
theorem capturingNavigation_w :
    (stepEvent doc5 80 3 ⟨2, 0, -1, "ab", true, true, false⟩ .ArrowUp).pattern
      = (⟨2, 0, -1, "ab", true, true, false⟩ : ViewerState).pattern :=
  (capturingNavigation doc5 80 3 ⟨2, 0, -1, "ab", true, true, false⟩ rfl).1.2.1

/-- Claim C10: while capturing with a single-character pattern and
`0 ≤ topLine < size - 1`, Backspace empties the pattern and recomputes the
match against the empty pattern, which resolves to `topLine + 1` (every line
contains the empty string), not `-1`; a Return immediately afterwards
therefore sets `topLine` to `topLine + 1`. -/
theorem backspaceEmpties_thenReturnAdvances (lines : List String) (vw vh : Int)
    (s : ViewerState)
    (hc : s.isCapturing = true) (hp : s.pattern.toList.length = 1)
    (h0 : 0 ≤ s.topLine) (hlt : s.topLine < (lines.length : Int) - 1)
    (hsz : lines.length < 2 ^ 64) :
    (stepEvent lines vw vh s .Backspace).pattern = "" ∧
    (stepEvent lines vw vh s .Backspace).matchingLine = s.topLine + 1 ∧
    (stepEvent lines vw vh (stepEvent lines vw vh s .Backspace) .Return).topLine
      = s.topLine + 1 := by
  have hlen2 : 2 ≤ lines.length := by omega
  have hdrop : String.mk s.pattern.toList.dropLast = "" := by
    obtain ⟨c, hcl⟩ := List.length_eq_one.mp hp
    rw [hcl]
    rfl
  have hfind : findNextMatchingLine lines s.topLine "" = s.topLine + 1 := by
    unfold findNextMatchingLine
    rw [toSizeT_eq_toNat s.topLine h0 (by omega), sizeTSub1_eq lines.length (by omega) hsz]
    rw [if_neg (by omega)]
    have hk : (s.topLine + 1).toNat < lines.length := by omega
    rw [range_drop_cons lines.length (s.topLine + 1).toNat hk]
    conv_lhs => unfold firstMatch
    rw [if_pos (lineContains_empty _)]
    omega
  have hCB : cmdBackspaceCapture lines s
      = { s with pattern := String.mk s.pattern.toList.dropLast,
                 matchingLine :=
                   findNextMatchingLine lines s.topLine
                     (String.mk s.pattern.toList.dropLast) } := by
    unfold cmdBackspaceCapture
    rw [if_pos hc, if_pos (by omega : s.pattern.toList.length ≠ 0)]
  have hCB2 : cmdBackspaceCapture lines s
      = { s with pattern := "", matchingLine := s.topLine + 1 } := by
    rw [hCB, hdrop, hfind]
  have hs1 : stepEvent lines vw vh s .Backspace
      = { cmdBackspaceCapture lines s with
          leftEdge := clampC (cmdBackspaceCapture lines s).leftEdge 0 (vw - 1),
          topLine :=
            clampC (cmdBackspaceCapture lines s).topLine 0 ((lines.length : Int) - 1) } := rfl
  have hstep2 : ∀ t : ViewerState, t.isCapturing = true →
      (stepEvent lines vw vh t .Return).topLine
        = clampC t.matchingLine 0 ((lines.length : Int) - 1) := by
    intro t ht
    show clampC (cmdEndCapture t).topLine 0 ((lines.length : Int) - 1)
        = clampC t.matchingLine 0 ((lines.length : Int) - 1)
    unfold cmdEndCapture
    rw [if_pos ht]
  refine ⟨?_, ?_, ?_⟩
  · rw [hs1, hCB2]
  · rw [hs1, hCB2]
  · have hcap : (stepEvent lines vw vh s .Backspace).isCapturing = true := by
      show (cmdBackspaceCapture lines s).isCapturing = true
      rw [hCB2]
      exact hc
    have hml : (stepEvent lines vw vh s .Backspace).matchingLine = s.topLine + 1 := by
      show (cmdBackspaceCapture lines s).matchingLine = s.topLine + 1
      rw [hCB2]
    rw [hstep2 _ hcap, hml]
    exact clampC_eq_self _ _ _ (by omega) (by omega)

/-- Claim C10 (witness): the backspace-then-return behaviour at a concrete
capturing state on the example document. -/
theorem backspaceEmpties_thenReturnAdvances_w :
    (stepEvent doc5 80 25 ⟨1, 0, -1, "q", true, true, false⟩ .Backspace).pattern = "" ∧
    (stepEvent doc5 80 25 ⟨1, 0, -1, "q", true, true, false⟩ .Backspace).matchingLine = 2 ∧
    (stepEvent doc5 80 25
        (stepEvent doc5 80 25 ⟨1, 0, -1, "q", true, true, false⟩ .Backspace)
        .Return).topLine = 2 :=
  backspaceEmpties_thenReturnAdvances doc5 80 25 ⟨1, 0, -1, "q", true, true, false⟩
    rfl rfl (by decide) (by decide) (by decide)

